import Mathlib

/-!
A verification development for the RAG-Assistant backend.

The Python sources under backend/ are shallowly embedded here:
pure functions become Lean functions, HTTP collaborators (the Groq and
Ollama endpoints, the Chroma vector store, the LLM generation calls)
become explicit oracle parameters describing their responses, and code
that may raise returns Except.  Python floats are modelled as rationals,
Python dict lookups as association-list lookups.
-/

/-- A JSON value, the shape of data produced by json.loads. -/
inductive JVal where
  | null : JVal
  | bool : Bool → JVal
  | num : Rat → JVal
  | str : String → JVal
  | arr : List JVal → JVal
  | obj : List (String × JVal) → JVal

/-- A JSON object: Python dict with string keys (keys assumed distinct,
as json.loads produces). -/
abbrev JObj := List (String × JVal)

/-- Python dict .get(k): first binding of the key, if any. -/
def jGet (d : JObj) (k : String) : Option JVal :=
  (d.find? (fun p => p.1 == k)).map (fun p => p.2)

/-- The exception kinds the embedded code can raise. -/
inductive PyErr where
  | runtimeError : PyErr
  | jsonDecodeError : PyErr
  | valueError : PyErr
  | requestException : PyErr
deriving DecidableEq, Repr

/-- The opening-brace character, written by code point to keep brace
characters out of literals. -/
def braceOpen : Char := Char.ofNat 123

/-- The closing-brace character. -/
def braceClose : Char := Char.ofNat 125

/-- Python str.find(c): index of the first occurrence, or -1. -/
def pyFind (s : String) (c : Char) : Int :=
  match s.data.findIdx? (fun x => x == c) with
  | some i => (i : Int)
  | none => -1

/-- Python str.rfind(c): index of the last occurrence, or -1. -/
def pyRFind (s : String) (c : Char) : Int :=
  match s.data.reverse.findIdx? (fun x => x == c) with
  | some i => ((s.data.length - 1 - i : Nat) : Int)
  | none => -1

/-- Python slicing s[a:b] with possibly negative bounds. -/
def pySlice (s : String) (a b : Int) : String :=
  let n : Int := (s.data.length : Int)
  let conv : Int → Nat := fun i =>
    (if i < 0 then max (n + i) 0 else min i n).toNat
  let lo := conv a
  let hi := conv b
  ⟨(s.data.drop lo).take (hi - lo)⟩

/-- The JSON-object span extracted by _safe_parse_json:
raw[raw.find("♦") : raw.rfind("♦") + 1] with brace delimiters. -/
def snippetOf (raw : String) : String :=
  pySlice raw (pyFind raw braceOpen) (pyRFind raw braceClose + 1)

/-- The deterministic fallback routing dict returned by _safe_parse_json
when parsing the backend output fails (router.py lines 42-50). -/
def fallbackRouting : JObj :=
  [("operation", .str "qa"),
   ("primary_source", .str "all"),
   ("secondary_sources", .arr []),
   ("arguments", .obj []),
   ("reasoning", .str "Fallback routing due to parse error."),
   ("search_strategy", .str "Search all sources."),
   ("confidence", .num (mkRat 1 10))]

/-- Model of _safe_parse_json(raw): extract the brace-delimited span and parse it;
every exception inside the try block (including a non-string raw, whose
.find would fail) yields the fallback dict.  The loads oracle models
Python json.loads restricted to object results; for the span shapes this
function produces, a successful json.loads is always an object. -/
def safe_parse_json (loads : String → Option JObj) (raw : JVal) : JObj :=
  match raw with
  | .str s =>
    match loads (snippetOf s) with
    | some d => d
    | none => fallbackRouting
  | _ => fallbackRouting

/-- The Ollama /api/generate HTTP response as ask_ollama sees it:
status code, the parsed JSON body (none when resp.json() raises), with
the body restricted to the Ollama response schema (an object). -/
structure OllamaHttp where
  status : Nat
  jsonBody : Option JObj

/-- ask_ollama (llm_runner.py): none models requests.post raising a
RequestException (re-raised as RuntimeError); non-200 status and a
missing response field raise RuntimeError; an unparsable body raises
from resp.json().  On success returns data["response"] (a JVal; the
Ollama API returns a string there). -/
def ask_ollama (r : Option OllamaHttp) : Except PyErr JVal :=
  match r with
  | none => .error .runtimeError
  | some resp =>
    if resp.status ≠ 200 then .error .runtimeError
    else
      match resp.jsonBody with
      | none => .error .jsonDecodeError
      | some data =>
        match jGet data "response" with
        | none => .error .runtimeError
        | some v => .ok v

/-- The Groq chat.completions HTTP response: status code and parsed JSON
body (none when resp.json() raises; in _route_with_groq that call is
outside the try block, so it propagates). -/
structure GroqHttp where
  status : Nat
  body : Option JVal

/-- Extraction of data["choices"][0]["message"]["content"] as a string;
none models any KeyError/IndexError/TypeError on that path (caught by
the surrounding try in _route_with_groq). -/
def groqContent (data : JVal) : Option String :=
  match data with
  | .obj kvs =>
    match jGet kvs "choices" with
    | some (.arr (c0 :: _)) =>
      match c0 with
      | .obj m =>
        match jGet m "message" with
        | some (.obj mm) =>
          match jGet mm "content" with
          | some (.str s) => some s
          | _ => none
        | _ => none
      | _ => none
    | _ => none
  | _ => none

/-- The environment of route_query: configuration flags and the
responses of its collaborators.  groq_response = none models a network
error or timeout in requests.post; ollama_response = none models a
connection error in ask_ollama.  json_loads models Python json.loads
restricted to object results. -/
structure RouterEnv where
  use_groq_router : Bool
  groq_api_key : String
  groq_response : Option GroqHttp
  ollama_response : Option OllamaHttp
  json_loads : String → Option JObj

/-- Model of _route_with_ollama: ask the local model, then parse leniently.
ask_ollama failures propagate. -/
def route_with_ollama (env : RouterEnv) : Except PyErr JObj :=
  (ask_ollama env.ollama_response).map (safe_parse_json env.json_loads)

/-- Model of _route_with_groq: a network error in requests.post propagates; a
non-200 status falls back to Ollama routing; an unparsable 200 body
raises from resp.json(); malformed content (missing fields or content
that is not clean JSON) falls back to Ollama routing. -/
def route_with_groq (env : RouterEnv) : Except PyErr JObj :=
  match env.groq_response with
  | none => .error .requestException
  | some resp =>
    if resp.status ≠ 200 then route_with_ollama env
    else
      match resp.body with
      | none => .error .jsonDecodeError
      | some data =>
        match (groqContent data).bind env.json_loads with
        | none => route_with_ollama env
        | some parsed => .ok parsed

/-- Python str.strip(): drop whitespace characters from both ends. -/
def pyStrip (s : String) : String :=
  ⟨((s.data.dropWhile Char.isWhitespace).reverse.dropWhile Char.isWhitespace).reverse⟩

/-- Parse a decimal numeral string the way Python float() accepts it
(optional surrounding whitespace, optional sign, digits with an optional
fractional part; scientific and underscore forms are not modelled).
Returns none when float() would raise ValueError. -/
def parsePyFloatString (s : String) : Option Rat :=
  let l := (pyStrip s).data
  let signAndRest : Int × List Char :=
    match l with
    | '-' :: r => (-1, r)
    | '+' :: r => (1, r)
    | _ => (1, l)
  let sign := signAndRest.1
  let body := signAndRest.2
  let intPart := body.takeWhile (fun c => c ≠ '.')
  let rest := body.dropWhile (fun c => c ≠ '.')
  let digitsVal : List Char → Nat := fun ds =>
    ds.foldl (fun a c => a * 10 + (c.toNat - 48)) 0
  match rest with
  | [] =>
    if intPart ≠ [] ∧ intPart.all Char.isDigit then
      some (mkRat (sign * (digitsVal intPart : Int)) 1)
    else none
  | _ :: frac =>
    if (intPart ≠ [] ∨ frac ≠ []) ∧ intPart.all Char.isDigit ∧
        frac.all Char.isDigit then
      some (mkRat (sign * ((digitsVal intPart * 10 ^ frac.length + digitsVal frac : Nat) : Int))
        (10 ^ frac.length))
    else none

/-- Python float(x) on a JSON value: numbers and booleans convert,
numeric strings parse, everything else raises ValueError/TypeError
(modelled as none). -/
def pyFloat : JVal → Option Rat
  | .num q => some q
  | .bool b => some (if b then 1 else 0)
  | .str s => parsePyFloatString s
  | _ => none

/-- raw_json.get(k, default) restricted to string-typed fields
(the routing schema types them as strings). -/
def getStrD (d : JObj) (k dflt : String) : String :=
  match jGet d k with
  | some (.str s) => s
  | _ => dflt

/-- raw_json.get("secondary_sources", []) or []: the string elements of
the array, empty when absent or not an array. -/
def getStrListD (d : JObj) (k : String) : List String :=
  match jGet d k with
  | some (.arr xs) => xs.filterMap (fun v => match v with | .str s => some s | _ => none)
  | _ => []

/-- raw_json.get("arguments", {}) or {}. -/
def getObjD (d : JObj) (k : String) : JObj :=
  match jGet d k with
  | some (.obj kvs) => kvs
  | _ => []

/-- The router decision dataclass (router.py lines 20-28).  confidence
is optional to match the orchestrator None-guard on it. -/
structure RouteDecision where
  operation : String
  primary_source : String
  secondary_sources : List String
  arguments : JObj
  reasoning : String
  search_strategy : String
  confidence : Option Rat

/-- The backend selection at the top of route_query: Groq when enabled
and a key is configured, otherwise Ollama. -/
def routeBackend (env : RouterEnv) : Except PyErr JObj :=
  if env.use_groq_router = true ∧ env.groq_api_key ≠ "" then route_with_groq env
  else route_with_ollama env

/-- route_query (router.py lines 53-86): obtain the raw routing dict
from the selected backend, then build a RouteDecision from it.  The
float() conversion of the confidence field raises ValueError on a
non-numeric value. -/
def route_query (env : RouterEnv) : Except PyErr RouteDecision :=
  match routeBackend env with
  | .error e => .error e
  | .ok raw_json =>
    match pyFloat ((jGet raw_json "confidence").getD (.num (mkRat 9 10))) with
    | none => .error .valueError
    | some conf =>
      .ok { operation := getStrD raw_json "operation" "qa",
            primary_source := getStrD raw_json "primary_source" "notes",
            secondary_sources := getStrListD raw_json "secondary_sources",
            arguments := getObjD raw_json "arguments",
            reasoning := getStrD raw_json "reasoning" "",
            search_strategy := getStrD raw_json "search_strategy" "",
            confidence := some conf }

/-! ## Retrieval hits and prompt assembly (rag/llm.py) -/

/-- The metadata dict attached to a retrieval hit; absent keys are none.
chunk indices are naturals. -/
structure Meta where
  source : Option String
  file : Option String
  filename : Option String
  path : Option String
  filepath : Option String
  chunk_index : Option Nat
deriving DecidableEq, Repr

/-- The all-absent metadata dict. -/
def emptyMeta : Meta :=
  { source := none, file := none, filename := none, path := none,
    filepath := none, chunk_index := none }

/-- A retrieval hit as produced by query_sources (query_engine.py):
collection label, id, chunk text, metadata and distance score; the
document key is used by some other callers of the prompt assembler. -/
structure Hit where
  collection : String
  id : String
  document : Option String
  text : Option String
  metadata : Option Meta
  score : Rat
deriving DecidableEq, Repr

/-- Python `a or b or ... or ""` over optional strings: the first
present, non-empty entry, else "". -/
def firstTruthyStr : List (Option String) → String
  | [] => ""
  | some s :: rest => if s = "" then firstTruthyStr rest else s
  | none :: rest => firstTruthyStr rest

/-- hit.get("document") or hit.get("text") or "". -/
def docTextOf (h : Hit) : String :=
  firstTruthyStr [h.document, h.text]

/-- The rendered snippet for hit number idx: the fixed header followed
by the stripped chunk text (llm.py lines 44-58). -/
def renderSnippet (idx : Nat) (h : Hit) : String :=
  let meta := h.metadata.getD emptyMeta
  let source := meta.source.getD "unknown"
  let file :=
    let f := firstTruthyStr [meta.file, meta.filename, meta.path, meta.filepath]
    if f = "" then "unknown" else f
  let chunk :=
    match meta.chunk_index with
    | some n => toString n
    | none => toString idx
  "[" ++ toString idx ++ "] (source=" ++ source ++ ", file=" ++ file ++
    ", chunk=" ++ chunk ++ ")" ++ "\n" ++ pyStrip (docTextOf h) ++ "\n"

/-- All snippets, rendered in input order with their indices. -/
def renderedSnippets (hits : List Hit) : List String :=
  hits.enum.map (fun p => renderSnippet p.1 p.2)

/-- The accumulation loop of build_prompt_from_hits: keep appending
snippets while they fit the running character budget, and stop at the
first snippet that would overflow it (llm.py lines 42-65). -/
def contextPartsAux (maxC : Nat) : List String → Nat → List String
  | [], _ => []
  | s :: rest, total =>
    if total + s.length > maxC then []
    else s :: contextPartsAux maxC rest (total + s.length)

/-- The context snippets that survive the budget. -/
def contextParts (hits : List Hit) (maxC : Nat) : List String :=
  contextPartsAux maxC (renderedSnippets hits) 0

/-- The fixed no-context template returned on empty hits
(llm.py lines 31-37). -/
def noContextPrompt (question : String) : String :=
  "You are my personal knowledge assistant.\n\nUser question:\n" ++ question ++
    "\n\nNo relevant context snippets were found in my personal knowledge base.\nIf you cannot confidently answer, say you are unsure.\n"

/-- The fixed text of the main prompt before the context block. -/
def mainPromptPre : String :=
  "You are my personal knowledge assistant.\n\nYou MUST use ONLY the context snippets below to answer the question.\nIf the answer is unclear or not present in the context, say that you are unsure\nand do NOT hallucinate.\n\nFor queries asking for \x27exact\x27 descriptions or direct quotes from notes, respond with verbatim text from the most relevant snippet(s) only. Do not add explanations, examples, options, or external knowledge—quote precisely and cite the source index.\n\nIf the query specifies an \x27exact\x27 command description (e.g., \x27cd command\x27), extract and quote ONLY the single line matching the command pattern (e.g., starting with \x27cd -\x27). Do not include adjacent lines, sections, or unrelated commands.\n\nContext:\n--------\n"

/-- The fixed text between the context block and the question. -/
def mainPromptMid : String :=
  "\n\nUser question:\n--------------\n"

/-- The fixed text after the question. -/
def mainPromptSuf : String :=
  "\n\nAnswer by quoting ONLY the exact matching line from the relevant context. Reference snippets with [index] (e.g., [0]).\n"

/-- The assembled main prompt around a given context string. -/
def assembledPrompt (question context_str : String) : String :=
  mainPromptPre ++ context_str ++ mainPromptMid ++ question ++ mainPromptSuf

/-- build_prompt_from_hits (llm.py): the no-context template on empty
hits, otherwise the main template around the budgeted, double-newline
joined context snippets. -/
def build_prompt_from_hits (question : String) (hits : List Hit)
    (max_context_chars : Nat := 6000) : String :=
  if hits.isEmpty then noContextPrompt question
  else assembledPrompt question
    (String.intercalate "\n\n" (contextParts hits max_context_chars))

/-! ## Summarizer (rag/summarizer.py) -/

/-- A chunk record as loaded from a Chroma collection by
_load_all_chunks: id, text and metadata. -/
structure Doc where
  id : String
  text : String
  metadata : Option Meta
deriving DecidableEq, Repr

/-- The batching loop of _make_batches (summarizer.py lines 47-69):
parts and acc carry the loop state, len the running character count. -/
def makeBatchesGo (maxC : Nat) (docs : List Doc) (parts : List String)
    (len : Nat) (acc : List String) : List String :=
  match docs with
  | [] => if parts = [] then acc else acc ++ [String.intercalate "\n\n" parts]
  | d :: rest =>
    let text := pyStrip d.text
    if text = "" then makeBatchesGo maxC rest parts len acc
    else if len + text.length + 2 > maxC ∧ parts ≠ [] then
      makeBatchesGo maxC rest [text] (text.length + 2)
        (acc ++ [String.intercalate "\n\n" parts])
    else
      makeBatchesGo maxC rest (parts ++ [text]) (len + text.length + 2) acc

/-- Model of _make_batches: group stripped chunk texts into batches of at most
about max_chars_per_batch characters. -/
def make_batches (docs : List Doc) (max_chars_per_batch : Nat := 2500) : List String :=
  makeBatchesGo max_chars_per_batch docs [] 0 []

/-- The prompt _summarize_batch sends around one batch of text. -/
def summarize_batch_prompt (batch_text : String) : String :=
  "You are summarizing my personal technical notes.\n\nYou will be given a chunk of my notes. Your job is to:\n- Extract the main ideas and concepts\n- Group related ideas together\n- Use simple, clear language\n- Keep it relatively concise but informative\n\nIMPORTANT:\n- Do NOT explain your reasoning\n- Do NOT think step-by-step\n- Directly output the final summary as bullet points\n\nHere is the text to summarize:\n\n---------------- BEGIN TEXT ----------------\n" ++ batch_text ++ "\n---------------- END TEXT ----------------\n\nNow write a bullet-point summary of the key ideas:\n"

/-- The final merge prompt around the joined partial summaries. -/
def final_merge_prompt (joined_summaries : String) : String :=
  "You are summarizing my entire knowledge base from multiple partial summaries.\n\nYou will be given several summaries that were generated from different parts of my notes.\nYour job is to:\n- Merge them into a single coherent overview\n- Remove duplicates and redundancies\n- Organize the ideas logically\n- Keep it clear, high-level, and easy to review later\n\nIMPORTANT:\n- Do NOT explain your reasoning\n- Do NOT show intermediate steps\n- Directly output the final clean summary\n\nHere are the partial summaries:\n\n---------------- PARTIAL SUMMARIES ----------------\n" ++ joined_summaries ++ "\n---------------- END PARTIAL SUMMARIES ----------------\n\nNow write a single, well-structured summary of my notes:\n"

/-- summarize_collection (summarizer.py lines 104-187).  store models
_load_all_chunks over the vector store; llmGen models _llm.generate
(prompt, model).  The second component of the result records whether
the final merged-summary generation call was invoked. -/
def summarize_collection (store : String → List Doc)
    (llmGen : String → String → String)
    (collection_name batch_model final_model : String) : String × Bool :=
  let docs := store collection_name
  if docs = [] then ("No documents found in this collection.", false)
  else
    let batches := make_batches docs 2500
    let batch_summaries := batches.map
      (fun b => llmGen (summarize_batch_prompt b) batch_model)
    match batch_summaries with
    | [s] =>
      if batch_model = final_model then (s, false)
      else (llmGen (final_merge_prompt s) final_model, true)
    | _ =>
      let joined := String.intercalate "\n\n"
        (batch_summaries.enum.map
          (fun p => "Summary " ++ toString (p.1 + 1) ++ ":\n" ++ p.2))
      (llmGen (final_merge_prompt joined) final_model, true)

/-! ## Orchestrator (core/orchestrator.py) -/

/-- Model and collection constants (rag/settings.py, rag/config.py). -/
def DEFAULT_QUERY_MODEL : String := "qwen2.5:3b"

/-- Model used for batch summarization. -/
def DEFAULT_BATCH_MODEL : String := "qwen2.5:3b"

/-- Model used for the final merged summary. -/
def DEFAULT_FINAL_MODEL : String := "qwen2.5:1.5b"

/-- The CS notes collection name. -/
def CS_COLLECTION_NAME : String := "cs_docs"

/-- The general documents collection name. -/
def GENERAL_COLLECTION_NAME : String := "general_docs"

/-- Collaborators of the orchestrator: retrieveE models query_sources
(source key, message, k), which can raise (vector store errors); the
askOllama and llmGenerate oracles model ask_ollama and _llm.generate
(prompt, model); store models _load_all_chunks for the summarizer. -/
structure OrchEnv where
  retrieveE : String → String → Nat → Except Unit (List Hit)
  askOllama : String → String → String
  llmGenerate : String → String → String
  store : String → List Doc

/-- The orchestrator result dict: answer, sources and routing keys,
present on every dispatch path. -/
structure OrchResult where
  answer : String
  sources : List Hit
  routing : RouteDecision

/-- Python str.lower(), character by character. -/
def pyLower (s : String) : String := ⟨s.data.map Char.toLower⟩

/-- Model of _map_sources_to_rag_keys (orchestrator.py lines 199-244): map the
router sources to a deduplicated, insertion-ordered list of RAG keys,
defaulting to the CS collection when nothing resolves. -/
def add_if_missing (ks : List String) (k : String) : List String :=
  if k ∈ ks then ks else ks ++ [k]

/-- One iteration of the secondary-sources loop in
_map_sources_to_rag_keys (orchestrator.py lines 231-238). -/
def addSecondary (ks : List String) (src : String) : List String :=
  let ks := if src = "notes" ∨ src = "cs" then add_if_missing ks "cs" else ks
  let ks := if src = "documents" ∨ src = "general" then add_if_missing ks "general" else ks
  if src = "all" then add_if_missing (add_if_missing ks "cs") "general" else ks

/-- Model of _map_sources_to_rag_keys itself. -/
def map_sources_to_rag_keys (route : RouteDecision) : List String :=
  let primary := pyLower (if route.primary_source = "" then "notes" else route.primary_source)
  let secondary := route.secondary_sources.map pyLower
  let keys : List String := []
  let keys := if primary = "notes" ∨ primary = "cs" then add_if_missing keys "cs" else keys
  let keys := if primary = "documents" ∨ primary = "general" then add_if_missing keys "general" else keys
  let keys := if primary = "all" then add_if_missing (add_if_missing keys "cs") "general" else keys
  let keys := secondary.foldl addSecondary keys
  if keys = [] then ["cs"] else keys

/-- Model of _build_operation_prompt (orchestrator.py lines 251-268). -/
def build_operation_prompt (message : String) (hits : List Hit)
    (operation : String) : String :=
  let op := pyLower (if operation = "" then "qa" else operation)
  if op = "summarize" then
    build_prompt_from_hits ("Summarize the key points relevant to: " ++ message) hits
  else build_prompt_from_hits message hits

/-- The multi-source retrieval loop shared by _handle_rag_qa and the
fallback branch of _handle_rag_qa_with_prefetch: query each key in
order, concatenating hits; a retrieval error aborts the loop. -/
def retrieveConcat (env : OrchEnv) (message : String)
    (keys : List String) (k : Nat) : Except Unit (List Hit) :=
  match keys with
  | [] => .ok []
  | s :: rest =>
    match env.retrieveE s message k with
    | .error e => .error e
    | .ok h =>
      match retrieveConcat env message rest k with
      | .error e => .error e
      | .ok t => .ok (h ++ t)

/-- Model of _handle_rag_qa (orchestrator.py lines 87-116): query the resolved
collections with k=3, keep the first 5 hits, build the prompt and ask
the QA model. -/
def handle_rag_qa (env : OrchEnv) (message : String)
    (route : RouteDecision) : Except Unit OrchResult :=
  match retrieveConcat env message (map_sources_to_rag_keys route) 3 with
  | .error e => .error e
  | .ok all_hits =>
    let hits_for_prompt := all_hits.take 5
    .ok { answer := env.askOllama
            (build_operation_prompt message hits_for_prompt route.operation)
            DEFAULT_QUERY_MODEL,
          sources := hits_for_prompt,
          routing := route }

/-- Model of _handle_summarize (orchestrator.py lines 123-143). -/
def handle_summarize (env : OrchEnv) (route : RouteDecision) : OrchResult :=
  { answer := (summarize_collection env.store env.llmGenerate
      CS_COLLECTION_NAME DEFAULT_BATCH_MODEL DEFAULT_FINAL_MODEL).1,
    sources := [],
    routing := route }

/-- Model of _handle_email_latest (orchestrator.py lines 150-169). -/
def handle_email_latest (route : RouteDecision) : OrchResult :=
  let sender := if route.arguments.isEmpty then "(unknown sender)"
    else getStrD route.arguments "sender" "(unknown sender)"
  { answer := "(email_latest stub) I detected that you want the latest email from \x27" ++
      sender ++ "\x27, but the email integration is not wired into the orchestrator yet.",
    sources := [],
    routing := route }

/-- Model of _free_chat_response (orchestrator.py lines 176-192). -/
def free_chat_response (env : OrchEnv) (message : String)
    (route : RouteDecision) : OrchResult :=
  { answer := env.askOllama
      ("You are my personal assistant. Answer the following question as helpfully and clearly as possible:\n\n" ++ message)
      DEFAULT_QUERY_MODEL,
    sources := [],
    routing := route }

/-- The low-confidence guard of both entry points:
route.confidence is not None and route.confidence < 0.1. -/
def lowConfidence (route : RouteDecision) : Prop :=
  match route.confidence with
  | some c => c < mkRat 1 10
  | none => False

instance (route : RouteDecision) : Decidable (lowConfidence route) :=
  match hc : route.confidence with
  | some c => decidable_of_iff (c < mkRat 1 10) (by simp [lowConfidence, hc])
  | none => isFalse (by simp [lowConfidence, hc])

/-- The operation guard op = route.operation or "qa" shared by both
entry points. -/
def opOf (route : RouteDecision) : String :=
  if route.operation = "" then "qa" else route.operation

/-- handle_prompt after the routing step (orchestrator.py lines 26-45),
with the RouteDecision supplied as an argument. -/
def handle_prompt_core (env : OrchEnv) (message : String)
    (route : RouteDecision) : Except Unit OrchResult :=
  let op := opOf route
  if lowConfidence route then .ok (free_chat_response env message route)
  else if op = "email_latest" then .ok (handle_email_latest route)
  else if op = "summarize" then .ok (handle_summarize env route)
  else if op = "free_chat" then .ok (free_chat_response env message route)
  else handle_rag_qa env message route

/-- Model of _prefetch_hits_for_message (orchestrator.py lines 270-282): the CS
retrieval with k=5, with every failure recovered to the empty list. -/
def prefetch_hits_for_message (env : OrchEnv) (message : String) : List Hit :=
  match env.retrieveE "cs" message 5 with
  | .ok h => h
  | .error _ => []

/-- Model of _handle_rag_qa_with_prefetch (orchestrator.py lines 285-315): reuse
the prefetched hits when the router resolved to CS only and the prefetch
is non-empty, otherwise fall back to the usual multi-source retrieval. -/
def handle_rag_qa_with_prefetch (env : OrchEnv) (message : String)
    (route : RouteDecision) (prefetched_hits : List Hit) : Except Unit OrchResult :=
  let rag_keys := map_sources_to_rag_keys route
  if rag_keys = ["cs"] ∧ prefetched_hits ≠ [] then
    .ok { answer := env.askOllama
            (build_operation_prompt message prefetched_hits route.operation)
            DEFAULT_QUERY_MODEL,
          sources := prefetched_hits,
          routing := route }
  else
    match retrieveConcat env message rag_keys 3 with
    | .error e => .error e
    | .ok all_hits =>
      let hits_for_prompt := all_hits.take 5
      .ok { answer := env.askOllama
              (build_operation_prompt message hits_for_prompt route.operation)
              DEFAULT_QUERY_MODEL,
            sources := hits_for_prompt,
            routing := route }

/-- handle_prompt_async after the routing step (orchestrator.py lines
57-81): same dispatch chain, with the speculative CS prefetch feeding
the QA path. -/
def handle_prompt_async_core (env : OrchEnv) (message : String)
    (route : RouteDecision) : Except Unit OrchResult :=
  let prefetched_hits := prefetch_hits_for_message env message
  let op := opOf route
  if lowConfidence route then .ok (free_chat_response env message route)
  else if op = "email_latest" then .ok (handle_email_latest route)
  else if op = "summarize" then .ok (handle_summarize env route)
  else if op = "free_chat" then .ok (free_chat_response env message route)
  else handle_rag_qa_with_prefetch env message route prefetched_hits

/-- The five dispatch destinations of the orchestrator. -/
inductive DispatchPath where
  | lowConfidenceFallback : DispatchPath
  | emailLatest : DispatchPath
  | summarizePath : DispatchPath
  | freeChat : DispatchPath
  | ragQA : DispatchPath
deriving DecidableEq, Repr

/-- The dispatch discriminator read off the shared branch structure of
handle_prompt and handle_prompt_async. -/
def dispatchPath (route : RouteDecision) : DispatchPath :=
  let op := opOf route
  if lowConfidence route then .lowConfidenceFallback
  else if op = "email_latest" then .emailLatest
  else if op = "summarize" then .summarizePath
  else if op = "free_chat" then .freeChat
  else .ragQA

/-- A routing decision with the given sources and defaults elsewhere,
used to state concrete resolver cases. -/
def mkRoute (p : String) (s : List String) : RouteDecision :=
  { operation := "qa", primary_source := p, secondary_sources := s,
    arguments := [], reasoning := "", search_strategy := "",
    confidence := some (mkRat 9 10) }

/-! ## Helper lemmas -/

theorem strAppend_assoc (a b c : String) : a ++ b ++ c = a ++ (b ++ c) := by
  rcases a with ⟨la⟩
  rcases b with ⟨lb⟩
  rcases c with ⟨lc⟩
  show String.mk (la ++ lb ++ lc) = String.mk (la ++ (lb ++ lc))
  rw [List.append_assoc]

theorem add_if_missing_nodup (ks : List String) (k : String)
    (h : ks.Nodup) : (add_if_missing ks k).Nodup := by
  unfold add_if_missing
  split
  · exact h
  · next hk =>
    refine h.append (List.nodup_singleton k) ?_
    intro a ha hb
    rw [List.mem_singleton] at hb
    subst hb
    exact hk ha

theorem addSecondary_nodup (ks : List String) (src : String)
    (h : ks.Nodup) : (addSecondary ks src).Nodup := by
  simp only [addSecondary]
  split_ifs <;>
    first
      | exact h
      | exact add_if_missing_nodup _ _ h
      | exact add_if_missing_nodup _ _ (add_if_missing_nodup _ _ h)
      | exact add_if_missing_nodup _ _ (add_if_missing_nodup _ _ (add_if_missing_nodup _ _ h))
      | exact add_if_missing_nodup _ _ (add_if_missing_nodup _ _ (add_if_missing_nodup _ _ (add_if_missing_nodup _ _ h)))

theorem foldl_addSecondary_nodup (l : List String) :
    ∀ ks : List String, ks.Nodup → (l.foldl addSecondary ks).Nodup := by
  induction l with
  | nil => intro ks h; simpa using h
  | cons s t ih =>
    intro ks h
    exact ih _ (addSecondary_nodup _ _ h)

theorem nodup_resolved_keys (K : List String) (h : K.Nodup) :
    (if K = [] then ["cs"] else K).Nodup := by
  split
  · exact List.nodup_singleton _
  · exact h

/-! ## Claim theorems -/

/-- C5: the Source Resolver _map_sources_to_rag_keys always returns a
duplicate-free list built in insertion order, and on the three given
decisions it returns exactly the listed keys: primary "all" resolves to
["cs", "general"], primary "notes" with secondary ["documents"] resolves
to ["cs", "general"], and primary "unknown" with no secondaries resolves
to the default ["cs"]. -/
theorem map_sources_to_rag_keys_spec :
    (∀ route : RouteDecision, (map_sources_to_rag_keys route).Nodup) ∧
    map_sources_to_rag_keys (mkRoute "all" []) = ["cs", "general"] ∧
    map_sources_to_rag_keys (mkRoute "notes" ["documents"]) = ["cs", "general"] ∧
    map_sources_to_rag_keys (mkRoute "unknown" []) = ["cs"] := by
  refine ⟨?_, by decide, by decide, by decide⟩
  intro route
  unfold map_sources_to_rag_keys
  dsimp only
  apply nodup_resolved_keys
  refine foldl_addSecondary_nodup _ _ ?_
  split_ifs <;>
      first
        | exact List.nodup_nil
        | exact add_if_missing_nodup _ _ List.nodup_nil
        | exact add_if_missing_nodup _ _ (add_if_missing_nodup _ _ List.nodup_nil)
        | exact add_if_missing_nodup _ _ (add_if_missing_nodup _ _ (add_if_missing_nodup _ _ List.nodup_nil))
        | exact add_if_missing_nodup _ _ (add_if_missing_nodup _ _ (add_if_missing_nodup _ _ (add_if_missing_nodup _ _ List.nodup_nil)))

/-- C9: with an empty hit list the Prompt Assembler returns exactly the
fixed no-context template; that template contains the literal question
text, and it contains the instruction to express uncertainty. -/
theorem build_prompt_from_hits_empty (question : String) (maxC : Nat) :
    build_prompt_from_hits question [] maxC = noContextPrompt question ∧
    (∃ a b : String, build_prompt_from_hits question [] maxC = a ++ question ++ b) ∧
    (∃ a b : String, build_prompt_from_hits question [] maxC =
      a ++ "say you are unsure" ++ b) := by
  have h1 : build_prompt_from_hits question [] maxC = noContextPrompt question := rfl
  refine ⟨h1, ⟨_, _, h1⟩, ?_⟩
  refine ⟨("You are my personal knowledge assistant.\n\nUser question:\n" ++ question) ++
    "\n\nNo relevant context snippets were found in my personal knowledge base.\nIf you cannot confidently answer, ", ".\n", ?_⟩
  rw [h1]
  unfold noContextPrompt
  have hpost :
      ("\n\nNo relevant context snippets were found in my personal knowledge base.\nIf you cannot confidently answer, say you are unsure.\n" : String) =
      "\n\nNo relevant context snippets were found in my personal knowledge base.\nIf you cannot confidently answer, " ++
        ("say you are unsure" ++ ".\n") := by decide
  rw [hpost]
  simp only [strAppend_assoc]

/-- C3: whenever the local routing backend answers but its output has no
parseable JSON object span, route_query returns exactly the deterministic
fallback decision: operation "qa", primary source "all", no secondary
sources, confidence 0.1. -/
theorem route_query_unparsable_fallback (env : RouterEnv) (raw : String)
    (hpath : ¬(env.use_groq_router = true ∧ env.groq_api_key ≠ ""))
    (hask : ask_ollama env.ollama_response = .ok (.str raw))
    (hload : env.json_loads (snippetOf raw) = none) :
    route_query env = .ok
      { operation := "qa", primary_source := "all",
        secondary_sources := [], arguments := [],
        reasoning := "Fallback routing due to parse error.",
        search_strategy := "Search all sources.",
        confidence := some (1/10) } := by
  have h2 : route_with_ollama env = .ok fallbackRouting := by
    unfold route_with_ollama
    rw [hask]
    show Except.ok (safe_parse_json env.json_loads (.str raw)) = _
    simp only [safe_parse_json, hload]
  unfold route_query routeBackend
  have h110 : (1/10 : Rat) = mkRat 1 10 := by norm_num
  rw [if_neg hpath, h2, h110]
  rfl

/-- A concrete environment whose Ollama backend answers text with no
parseable JSON span. -/
def envC3 : RouterEnv :=
  { use_groq_router := false, groq_api_key := "",
    groq_response := none,
    ollama_response := some
      { status := 200, jsonBody := some [("response", .str "no json here")] },
    json_loads := fun _ => none }

/-- Witness for C3 at a concrete environment. -/
theorem route_query_unparsable_fallback_witness :
    route_query envC3 = .ok
      { operation := "qa", primary_source := "all",
        secondary_sources := [], arguments := [],
        reasoning := "Fallback routing due to parse error.",
        search_strategy := "Search all sources.",
        confidence := some (1/10) } :=
  route_query_unparsable_fallback envC3 "no json here"
    (by simp [envC3]) rfl rfl

/-- An environment in which the Groq router is enabled and its HTTP
request fails with a network error or timeout. -/
def envC2net : RouterEnv :=
  { use_groq_router := true, groq_api_key := "key",
    groq_response := none,
    ollama_response := none,
    json_loads := fun _ => none }

/-- A backend response that parses to a JSON object whose confidence
field is the non-numeric string "high". -/
def rawC2 : String :=
  String.singleton braceOpen ++ "\"confidence\": \"high\"" ++ String.singleton braceClose

/-- An environment in which the local backend answers parseable JSON
whose confidence field is non-numeric. -/
def envC2conf : RouterEnv :=
  { use_groq_router := false, groq_api_key := "",
    groq_response := none,
    ollama_response := some
      { status := 200, jsonBody := some [("response", .str rawC2)] },
    json_loads := fun s =>
      if s = rawC2 then some [("confidence", .str "high")] else none }

/-- C2 counterexample: route_query does raise to its caller.  A network
error in the Groq request propagates as an exception, and a parseable
backend output whose confidence field is a non-numeric string raises
from the float() conversion, so route_query does not always return a
RouteDecision. -/
theorem route_query_raises :
    route_query envC2net = .error .requestException ∧
    route_query envC2conf = .error .valueError := by
  constructor <;> rfl

/-- C2 amended: on the local-backend path, once the Ollama transport
succeeds, unparsable output never raises (it is absorbed by the fallback
parser) and route_query returns a RouteDecision provided the confidence
field of the parsed output converts to a float. -/
theorem route_query_ok_of_ollama_ok (env : RouterEnv) (raw : JVal)
    (hpath : ¬(env.use_groq_router = true ∧ env.groq_api_key ≠ ""))
    (hask : ask_ollama env.ollama_response = .ok raw)
    (hconf : (pyFloat ((jGet (safe_parse_json env.json_loads raw)
      "confidence").getD (.num (mkRat 9 10)))).isSome) :
    ∃ dec, route_query env = .ok dec := by
  have h2 : route_with_ollama env = .ok (safe_parse_json env.json_loads raw) := by
    unfold route_with_ollama
    rw [hask]
    rfl
  unfold route_query routeBackend
  rw [if_neg hpath, h2]
  dsimp only
  rcases hpf : pyFloat ((jGet (safe_parse_json env.json_loads raw)
      "confidence").getD (.num (mkRat 9 10))) with _ | conf
  · rw [hpf] at hconf
    simp at hconf
  · exact ⟨_, rfl⟩

/-- Witness for the amended C2 at a concrete well-formed environment. -/
theorem route_query_ok_of_ollama_ok_witness :
    ∃ dec, route_query envC3 = .ok dec :=
  route_query_ok_of_ollama_ok envC3 (.str "no json here")
    (by simp [envC3]) rfl (by rfl)

/-- C4: whenever the routing confidence is defined and strictly below
0.1, both orchestrator entry points return the low-confidence free-chat
response, whatever the operation field says, and the dispatch
destination is the low-confidence fallback (so the QA, summarize and
email handlers never run). -/
theorem low_confidence_dispatch (env : OrchEnv) (message : String)
    (route : RouteDecision) (c : Rat)
    (hc : route.confidence = some c) (hlt : c < 1/10) :
    handle_prompt_core env message route =
      .ok (free_chat_response env message route) ∧
    handle_prompt_async_core env message route =
      .ok (free_chat_response env message route) ∧
    dispatchPath route = .lowConfidenceFallback := by
  have hlc : lowConfidence route := by
    unfold lowConfidence
    rw [hc]
    show c < mkRat 1 10
    have h110 : (mkRat 1 10 : Rat) = 1/10 := by norm_num
    rw [h110]
    exact hlt
  refine ⟨?_, ?_, ?_⟩
  · unfold handle_prompt_core
    rw [if_pos hlc]
  · unfold handle_prompt_async_core
    rw [if_pos hlc]
  · unfold dispatchPath
    rw [if_pos hlc]

/-- A concrete orchestrator environment for witnesses. -/
def envOrchW : OrchEnv :=
  { retrieveE := fun _ _ _ => .ok [],
    askOllama := fun _ _ => "chat answer",
    llmGenerate := fun _ _ => "summary text",
    store := fun _ => [] }

/-- A decision with operation summarize but confidence 0.05. -/
def routeLowConf : RouteDecision :=
  { operation := "summarize", primary_source := "all",
    secondary_sources := [], arguments := [], reasoning := "",
    search_strategy := "", confidence := some (mkRat 1 20) }

/-- Witness for C4 at a concrete low-confidence decision. -/
theorem low_confidence_dispatch_witness :
    handle_prompt_core envOrchW "hello" routeLowConf =
      .ok (free_chat_response envOrchW "hello" routeLowConf) ∧
    handle_prompt_async_core envOrchW "hello" routeLowConf =
      .ok (free_chat_response envOrchW "hello" routeLowConf) ∧
    dispatchPath routeLowConf = .lowConfidenceFallback :=
  low_confidence_dispatch envOrchW "hello" routeLowConf (mkRat 1 20) rfl (by norm_num)

/-- Shared agreement lemma: off the CS-only prefetch path the sequential
and concurrent dispatchers are the same function of the environment. -/
theorem sync_async_agree (env : OrchEnv) (message : String)
    (route : RouteDecision)
    (h : map_sources_to_rag_keys route ≠ ["cs"] ∨
         prefetch_hits_for_message env message = []) :
    handle_prompt_core env message route =
      handle_prompt_async_core env message route := by
  have hcond : ¬(map_sources_to_rag_keys route = ["cs"] ∧
      prefetch_hits_for_message env message ≠ []) := by
    rcases h with h | h
    · exact fun hc => h hc.1
    · exact fun hc => hc.2 h
  unfold handle_prompt_core handle_prompt_async_core
  simp only [handle_rag_qa, handle_rag_qa_with_prefetch, if_neg hcond]

/-- C1 amended: the sequential and concurrent entry points, given the
same RouteDecision and the same collaborator responses, agree on every
path except the CS-only QA path with a non-empty prefetch: whenever the
resolved keys differ from ["cs"] or the speculative prefetch is empty,
the dispatch state and the whole result (answer and sources included)
coincide. -/
theorem sync_async_equiv_off_prefetch_path (env : OrchEnv)
    (message : String) (route : RouteDecision)
    (h : map_sources_to_rag_keys route ≠ ["cs"] ∨
         prefetch_hits_for_message env message = []) :
    handle_prompt_core env message route =
      handle_prompt_async_core env message route :=
  sync_async_agree env message route h

/-- Witness for the amended C1 on a decision resolving to both
collections. -/
theorem sync_async_equiv_off_prefetch_path_witness :
    handle_prompt_core envOrchW "q" (mkRoute "all" []) =
      handle_prompt_async_core envOrchW "q" (mkRoute "all" []) :=
  sync_async_equiv_off_prefetch_path envOrchW "q" (mkRoute "all" [])
    (Or.inl (by decide))

/-- A hit with the given id number. -/
def mkHitN (n : Nat) : Hit :=
  { collection := "cs", id := toString n, document := none,
    text := some "chunk text", metadata := none, score := mkRat n 1 }

/-- A retrieval environment answering three hits to the k=3 CS query
and five hits to the k=5 CS prefetch, as a real vector store with at
least five stored chunks does. -/
def envC1 : OrchEnv :=
  { retrieveE := fun s _ k =>
      if s = "cs" ∧ k = 3 then .ok [mkHitN 0, mkHitN 1, mkHitN 2]
      else if s = "cs" ∧ k = 5 then
        .ok [mkHitN 0, mkHitN 1, mkHitN 2, mkHitN 3, mkHitN 4]
      else .ok [],
    askOllama := fun _ _ => "answer",
    llmGenerate := fun _ _ => "summary",
    store := fun _ => [] }

/-- C1 counterexample: with identical collaborator responses and the
same notes-only RouteDecision, the sequential entry point returns three
sources (k=3 retrieval) while the concurrent one returns the five
prefetched hits (k=5, untruncated), so the results are not identical. -/
theorem sync_async_divergence :
    (handle_prompt_core envC1 "q" (mkRoute "notes" [])).toOption.map
      (fun r => r.sources.length) = some 3 ∧
    (handle_prompt_async_core envC1 "q" (mkRoute "notes" [])).toOption.map
      (fun r => r.sources.length) = some 5 := by
  constructor <;> rfl

/-- C8: a failure of the speculative CS retrieval is recovered locally
to an empty hit list, and the concurrent entry point then behaves
exactly like the sequential one, so the prefetch failure fails neither
the join nor the overall request. -/
theorem prefetch_failure_recovered (env : OrchEnv) (message : String)
    (route : RouteDecision) (e : Unit)
    (herr : env.retrieveE "cs" message 5 = .error e) :
    prefetch_hits_for_message env message = [] ∧
    handle_prompt_async_core env message route =
      handle_prompt_core env message route := by
  have hp : prefetch_hits_for_message env message = [] := by
    unfold prefetch_hits_for_message
    rw [herr]
  exact ⟨hp, (sync_async_agree env message route (Or.inr hp)).symm⟩

/-- An environment whose CS retrieval always fails. -/
def envC8 : OrchEnv :=
  { retrieveE := fun _ _ _ => .error (),
    askOllama := fun _ _ => "answer",
    llmGenerate := fun _ _ => "summary",
    store := fun _ => [] }

/-- Witness for C8 at a concrete failing retrieval environment. -/
theorem prefetch_failure_recovered_witness :
    prefetch_hits_for_message envC8 "q" = [] ∧
    handle_prompt_async_core envC8 "q" (mkRoute "notes" []) =
      handle_prompt_core envC8 "q" (mkRoute "notes" []) :=
  prefetch_failure_recovered envC8 "q" (mkRoute "notes" []) () rfl

/-- Total rendered length of a list of snippets. -/
def sumLen (l : List String) : Nat := (l.map String.length).sum

/-- The accumulation loop keeps a prefix of the snippet list: it is
maximal for the running budget, every kept prefix sum stays within the
budget, and it stops exactly at the first snippet that would overflow. -/
theorem contextPartsAux_spec (maxC : Nat) (l : List String) :
    ∀ t : Nat, t ≤ maxC →
    ∃ n, n ≤ l.length ∧ contextPartsAux maxC l t = l.take n ∧
      t + sumLen (l.take n) ≤ maxC ∧
      (n = l.length ∨ ∃ h : n < l.length,
        t + sumLen (l.take n) + (l.get ⟨n, h⟩).length > maxC) := by
  induction l with
  | nil =>
    intro t ht
    exact ⟨0, Nat.le_refl 0, rfl, by simpa [sumLen] using ht, Or.inl rfl⟩
  | cons s rest ih =>
    intro t ht
    by_cases hov : t + s.length > maxC
    · refine ⟨0, Nat.zero_le _, ?_, ?_, Or.inr ⟨Nat.succ_pos _, ?_⟩⟩
      · unfold contextPartsAux
        rw [if_pos hov]
        rfl
      · simpa [sumLen] using ht
      · simpa [sumLen] using hov
    · have hfit : t + s.length ≤ maxC := Nat.le_of_not_lt hov
      obtain ⟨n, hn, heq, hsum, hstop⟩ := ih (t + s.length) hfit
      refine ⟨n + 1, Nat.succ_le_succ hn, ?_, ?_, ?_⟩
      · unfold contextPartsAux
        rw [if_neg hov, heq]
        exact (List.take_succ_cons).symm
      · simp only [List.take_succ_cons, sumLen, List.map_cons, List.sum_cons]
        simp only [sumLen] at hsum
        omega
      · rcases hstop with h | ⟨hlt, hgt⟩
        · exact Or.inl (by simp [h])
        · refine Or.inr ⟨Nat.succ_lt_succ hlt, ?_⟩
          simp only [List.take_succ_cons, sumLen, List.map_cons, List.sum_cons, List.get_cons_succ]
          simp only [sumLen] at hgt
          omega

/-- C6: with a non-empty hit list the Prompt Assembler includes a prefix
of the rendered snippets in input order, the total rendered length of
the included snippets never exceeds the budget, inclusion stops exactly
at the first snippet that would overflow (no partial truncation), and
the returned prompt is assembled from exactly those snippets. -/
theorem build_prompt_budget (question : String) (hits : List Hit)
    (maxC : Nat) (hne : hits ≠ []) :
    ∃ n, contextParts hits maxC = (renderedSnippets hits).take n ∧
      sumLen ((renderedSnippets hits).take n) ≤ maxC ∧
      (n = (renderedSnippets hits).length ∨
        ∃ hlt : n < (renderedSnippets hits).length,
          sumLen ((renderedSnippets hits).take n) +
            ((renderedSnippets hits).get ⟨n, hlt⟩).length > maxC) ∧
      build_prompt_from_hits question hits maxC =
        assembledPrompt question
          (String.intercalate "\n\n" ((renderedSnippets hits).take n)) := by
  obtain ⟨n, _, heq, hsum, hstop⟩ :=
    contextPartsAux_spec maxC (renderedSnippets hits) 0 (Nat.zero_le _)
  have hctx : contextParts hits maxC = (renderedSnippets hits).take n := heq
  refine ⟨n, hctx, by simpa using hsum, ?_, ?_⟩
  · rcases hstop with h | ⟨hlt, hgt⟩
    · exact Or.inl h
    · exact Or.inr ⟨hlt, by simpa using hgt⟩
  · unfold build_prompt_from_hits
    rw [if_neg (by simpa [List.isEmpty_iff] using hne), hctx]

/-- A list with one concrete hit. -/
def hitsC6 : List Hit :=
  [{ collection := "cs", id := "0", document := none,
     text := some "short text", metadata := none, score := mkRat 0 1 }]

/-- Witness for C6 at a concrete hit list and budget. -/
theorem build_prompt_budget_witness :
    hitsC6 ≠ [] ∧
    ∃ n, contextParts hitsC6 100 = (renderedSnippets hitsC6).take n ∧
      sumLen ((renderedSnippets hitsC6).take n) ≤ 100 ∧
      (n = (renderedSnippets hitsC6).length ∨
        ∃ hlt : n < (renderedSnippets hitsC6).length,
          sumLen ((renderedSnippets hitsC6).take n) +
            ((renderedSnippets hitsC6).get ⟨n, hlt⟩).length > 100) ∧
      build_prompt_from_hits "q" hitsC6 100 =
        assembledPrompt "q"
          (String.intercalate "\n\n" ((renderedSnippets hitsC6).take n)) :=
  ⟨by decide, build_prompt_budget "q" hitsC6 100 (by decide)⟩

/-- C7: when the chunks of the collection fit into a single batch and the
batch model equals the final model, summarize_collection returns that
summary of that single batch verbatim and the merge-step generation is never
invoked. -/
theorem summarize_single_batch (store : String → List Doc)
    (llmGen : String → String → String) (cname bm fm b : String)
    (hb : make_batches (store cname) 2500 = [b]) (hm : bm = fm) :
    summarize_collection store llmGen cname bm fm =
      (llmGen (summarize_batch_prompt b) bm, false) := by
  subst hm
  have hdocs : ¬(store cname = []) := by
    intro h0
    rw [h0] at hb
    simp [make_batches, makeBatchesGo] at hb
  unfold summarize_collection
  rw [if_neg hdocs, hb]
  simp

/-- A store with one small document. -/
def storeC7 : String → List Doc :=
  fun _ => [{ id := "1", text := "docker notes", metadata := none }]

/-- Witness for C7 at a concrete one-batch collection. -/
theorem summarize_single_batch_witness :
    summarize_collection storeC7 (fun p _ => "summary of: " ++ p) "cs_docs"
        "qwen2.5:3b" "qwen2.5:3b" =
      ((fun (p : String) (_ : String) => "summary of: " ++ p)
        (summarize_batch_prompt "docker notes") "qwen2.5:3b", false) :=
  summarize_single_batch storeC7 (fun p _ => "summary of: " ++ p)
    "cs_docs" "qwen2.5:3b" "qwen2.5:3b" "docker notes" (by rfl) rfl

/-- Dispatch-result invariants of the sequential entry point: the
routing field always carries the full decision, and every non-QA path
returns a structurally empty sources list. -/
theorem core_result_fields (env : OrchEnv) (message : String)
    (route : RouteDecision) (r : OrchResult)
    (h : handle_prompt_core env message route = .ok r) :
    r.routing = route ∧ (dispatchPath route ≠ .ragQA → r.sources = []) := by
  unfold handle_prompt_core at h
  by_cases hlc : lowConfidence route
  · rw [if_pos hlc] at h
    obtain rfl : free_chat_response env message route = r := Except.ok.inj h
    exact ⟨rfl, fun _ => rfl⟩
  · rw [if_neg hlc] at h
    by_cases he : opOf route = "email_latest"
    · rw [if_pos he] at h
      obtain rfl : handle_email_latest route = r := Except.ok.inj h
      exact ⟨rfl, fun _ => rfl⟩
    · rw [if_neg he] at h
      by_cases hs : opOf route = "summarize"
      · rw [if_pos hs] at h
        obtain rfl : handle_summarize env route = r := Except.ok.inj h
        exact ⟨rfl, fun _ => rfl⟩
      · rw [if_neg hs] at h
        by_cases hf : opOf route = "free_chat"
        · rw [if_pos hf] at h
          obtain rfl : free_chat_response env message route = r := Except.ok.inj h
          exact ⟨rfl, fun _ => rfl⟩
        · rw [if_neg hf] at h
          have hd : dispatchPath route = .ragQA := by
            unfold dispatchPath
            rw [if_neg hlc, if_neg he, if_neg hs, if_neg hf]
          unfold handle_rag_qa at h
          rcases hre : retrieveConcat env message (map_sources_to_rag_keys route) 3 with e | hits
          · rw [hre] at h
            exact absurd h (by simp)
          · rw [hre] at h
            obtain rfl := Except.ok.inj h
            exact ⟨rfl, fun hne => absurd hd hne⟩

/-- Dispatch-result invariants of the concurrent entry point. -/
theorem async_core_result_fields (env : OrchEnv) (message : String)
    (route : RouteDecision) (r : OrchResult)
    (h : handle_prompt_async_core env message route = .ok r) :
    r.routing = route ∧ (dispatchPath route ≠ .ragQA → r.sources = []) := by
  unfold handle_prompt_async_core at h
  by_cases hlc : lowConfidence route
  · rw [if_pos hlc] at h
    obtain rfl : free_chat_response env message route = r := Except.ok.inj h
    exact ⟨rfl, fun _ => rfl⟩
  · rw [if_neg hlc] at h
    by_cases he : opOf route = "email_latest"
    · rw [if_pos he] at h
      obtain rfl : handle_email_latest route = r := Except.ok.inj h
      exact ⟨rfl, fun _ => rfl⟩
    · rw [if_neg he] at h
      by_cases hs : opOf route = "summarize"
      · rw [if_pos hs] at h
        obtain rfl : handle_summarize env route = r := Except.ok.inj h
        exact ⟨rfl, fun _ => rfl⟩
      · rw [if_neg hs] at h
        by_cases hf : opOf route = "free_chat"
        · rw [if_pos hf] at h
          obtain rfl : free_chat_response env message route = r := Except.ok.inj h
          exact ⟨rfl, fun _ => rfl⟩
        · rw [if_neg hf] at h
          have hd : dispatchPath route = .ragQA := by
            unfold dispatchPath
            rw [if_neg hlc, if_neg he, if_neg hs, if_neg hf]
          unfold handle_rag_qa_with_prefetch at h
          by_cases hp : map_sources_to_rag_keys route = ["cs"] ∧
              prefetch_hits_for_message env message ≠ []
          · rw [if_pos hp] at h
            obtain rfl := Except.ok.inj h
            exact ⟨rfl, fun hne => absurd hd hne⟩
          · rw [if_neg hp] at h
            rcases hre : retrieveConcat env message (map_sources_to_rag_keys route) 3 with e | hits
            · rw [hre] at h
              exact absurd h (by simp)
            · rw [hre] at h
              obtain rfl := Except.ok.inj h
              exact ⟨rfl, fun hne => absurd hd hne⟩

/-- C10: on every dispatch path of either entry point the result record
carries all three fields, with routing equal to the full RouteDecision,
and with sources present as the empty list on the summarize, email and
free-chat (including low-confidence) paths. -/
theorem dispatch_result_fields (env : OrchEnv) (message : String)
    (route : RouteDecision) (r : OrchResult)
    (h : handle_prompt_core env message route = .ok r ∨
         handle_prompt_async_core env message route = .ok r) :
    r.routing = route ∧ (dispatchPath route ≠ .ragQA → r.sources = []) := by
  rcases h with h | h
  · exact core_result_fields env message route r h
  · exact async_core_result_fields env message route r h

/-- A summarize decision at full confidence. -/
def routeSumm : RouteDecision :=
  { operation := "summarize", primary_source := "notes",
    secondary_sources := [], arguments := [], reasoning := "",
    search_strategy := "", confidence := some (mkRat 9 10) }

/-- Witness for C10 on the summarize path of the sequential entry
point. -/
theorem dispatch_result_fields_witness :
    (handle_summarize envOrchW routeSumm).routing = routeSumm ∧
    (dispatchPath routeSumm ≠ .ragQA →
      (handle_summarize envOrchW routeSumm).sources = []) :=
  dispatch_result_fields envOrchW "m" routeSumm
    (handle_summarize envOrchW routeSumm) (Or.inl rfl)
